import Mathlib

/-!
Verification of `src/shader.js` (a WebGL full-screen animated shader demo).

The host-side program is embedded as a state machine over a `Renderer`
record (the module-level mutable variables `canvas`, `gl`, `program` and the
GL-side state touched by the code), and the GPU-side fragment shader in
`fragmentShaderSource` is embedded as a real-valued function.

Fallible host-side operations are embedded with `Except`: in JavaScript,
calling a method on a `null` object throws a `TypeError`, which the
embedding reflects as `Except.error`.
-/

namespace Shader

/-- Environment supplied by the browser to `initShader`: whether
`canvas.getContext("webgl")` yields a context, whether each shader stage
compiles (`gl.getShaderParameter(·, gl.COMPILE_STATUS)`), and the info-log
text `gl.getShaderInfoLog` would return for each stage. -/
structure GLEnv where
  contextAvailable : Bool
  vertexCompileOk : Bool
  fragmentCompileOk : Bool
  vertexInfoLog : String
  fragmentInfoLog : String
deriving Repr, DecidableEq

/-- The module-level mutable state of `shader.js` together with the GL
state the code manipulates.  `gl : Bool` records whether the WebGL context
was acquired (`gl` being non-null in the source). -/
structure Renderer where
  gl : Bool
  canvasW : Nat
  canvasH : Nat
  viewport : Option (Nat × Nat × Nat × Nat)
  linked : Bool
  programActive : Bool
  bufferUploaded : Bool
  renderLoopStarted : Bool
  iResolution : Nat × Nat
  iTime : ℚ
  consoleLog : List String
deriving Repr, DecidableEq

/-- State before `window.onload` fires: nothing initialized. -/
def initialRenderer : Renderer :=
  { gl := false, canvasW := 0, canvasH := 0, viewport := none,
    linked := false, programActive := false, bufferUploaded := false,
    renderLoopStarted := false, iResolution := (0, 0), iTime := 0,
    consoleLog := [] }

/-- Function `resizeCanvas` (src/shader.js lines 86-90): sets `canvas.width` and
`canvas.height` to the window's inner dimensions, then calls
`gl.viewport(0, 0, canvas.width, canvas.height)`.  The width/height
assignments happen first; if `gl` is null (WebGL context never acquired),
the `gl.viewport` call throws a `TypeError`. -/
def resizeCanvas (winW winH : Nat) (s : Renderer) : Except String Renderer :=
  let s1 := { s with canvasW := winW, canvasH := winH }
  if s1.gl then
    Except.ok { s1 with viewport := some (0, 0, winW, winH) }
  else
    Except.error "TypeError: cannot read gl.viewport of null"

/-- Function `initShader` (src/shader.js lines 42-84): acquires the WebGL context
(early return with a console message if unavailable), compiles both shader
stages logging each stage's info log on compile failure, then
unconditionally links and activates the program, uploads the quad buffer,
calls `resizeCanvas` and starts the render loop via `render()`.
`winW`/`winH` are the window dimensions seen by the initial resize. -/
def initShader (env : GLEnv) (winW winH : Nat) : Renderer :=
  if !env.contextAvailable then
    { initialRenderer with consoleLog := ["WebGL not supported"] }
  else
    let s0 := { initialRenderer with gl := true }
    let log1 := if !env.vertexCompileOk then
        ["Vertex shader error: " ++ env.vertexInfoLog] else []
    let log2 := if !env.fragmentCompileOk then
        ["Fragment shader error: " ++ env.fragmentInfoLog] else []
    let s1 := { s0 with consoleLog := log1 ++ log2,
                        linked := true, programActive := true,
                        bufferUploaded := true }
    match resizeCanvas winW winH s1 with
    | Except.ok s2 => { s2 with renderLoopStarted := true }
    | Except.error _ => s1

/-- Elapsed time computed by `render` (src/shader.js line 93):
`(Date.now() - startTime) / 1000`, in seconds.  `Date.now()` returns an
integer count of milliseconds, embedded as `ℤ`; the quotient is exact
rational division. -/
def elapsedTime (startTime now : ℤ) : ℚ :=
  ((now - startTime : ℤ) : ℚ) / 1000

/-- One body of the `render` loop (src/shader.js lines 92-103): computes
the elapsed time, pushes the `iResolution` and `iTime` uniforms, and
issues the draw call (which changes no host-side state we track). -/
def renderFrame (startTime now : ℤ) (s : Renderer) : Renderer :=
  { s with iResolution := (s.canvasW, s.canvasH),
           iTime := elapsedTime startTime now }

/-! ### The GPU fragment shader (`fragmentShaderSource`)

GLSL `mediump float` arithmetic is idealised over `ℝ`, as the spec's
reference definition does. -/

/-- A `vec2`: a pair of reals. -/
abbrev Vec2 : Type := ℝ × ℝ

/-- A `vec3`: components accessed as `.1`, `.2.1`, `.2.2`. -/
abbrev Vec3 : Type := ℝ × ℝ × ℝ

/-- GLSL scalar-times-vector product `s * vec3(...)`. -/
noncomputable def vscale (s : ℝ) (v : Vec3) : Vec3 := (s * v.1, s * v.2.1, s * v.2.2)

/-- GLSL `clamp(x, lo, hi) = min(max(x, lo), hi)`. -/
noncomputable def clampGL (x lo hi : ℝ) : ℝ := min (max x lo) hi

/-- GLSL `smoothstep(edge0, edge1, x)`: Hermite interpolation
`t*t*(3 - 2*t)` of `t = clamp((x - edge0)/(edge1 - edge0), 0, 1)`. -/
noncomputable def smoothstep (edge0 edge1 x : ℝ) : ℝ :=
  let t := clampGL ((x - edge0) / (edge1 - edge0)) 0 1
  t * t * (3 - 2 * t)

/-- The wave offset of loop iteration `i` (src/shader.js line 27):
`sin(iTime * speed * 0.2 + uv.y * 8.0) * 0.2` with
`speed = 1.0 + float(i)/6.0`. -/
noncomputable def waveOf (iTime : ℝ) (uv : Vec2) (i : ℕ) : ℝ :=
  Real.sin (iTime * (1 + (i : ℝ) / 6) * 0.2 + uv.2 * 8) * 0.2

/-- The distance `abs(uv.x - wave)` appearing in lines 30 and 33. -/
noncomputable def distOf (iTime : ℝ) (uv : Vec2) (i : ℕ) : ℝ :=
  |uv.1 - waveOf iTime uv i|

/-- The thin-line term of iteration `i` (line 30):
`1.0 - smoothstep(0.003, 0.008, abs(uv.x - wave))`. -/
noncomputable def lineOf (iTime : ℝ) (uv : Vec2) (i : ℕ) : ℝ :=
  1 - smoothstep 0.003 0.008 (distOf iTime uv i)

/-- The glow term `blur` of iteration `i` (line 33):
`exp(-abs(uv.x - wave) * 20.0) * 0.3`. -/
noncomputable def blurOf (iTime : ℝ) (uv : Vec2) (i : ℕ) : ℝ :=
  Real.exp (-(distOf iTime uv i) * 20) * 0.3

/-- The colour added to `col` by iteration `i` (line 35):
`(line + blur) * vec3(0.2 + t, 0.3, 0.8)` with `t = float(i)/6.0`. -/
noncomputable def fragContrib (iTime : ℝ) (uv : Vec2) (i : ℕ) : Vec3 :=
  vscale (lineOf iTime uv i + blurOf iTime uv i) (0.2 + (i : ℝ) / 6, 0.3, 0.8)

/-- One iteration of the `for(int i=0;i<6;i++)` body (lines 22-36). -/
noncomputable def fragLoopBody (iTime : ℝ) (uv : Vec2) (col : Vec3) (i : ℕ) : Vec3 :=
  col + fragContrib iTime uv i

/-- The accumulated colour `col` after the loop, starting from the base
colour `vec3(0.05, 0.05, 0.1)` (lines 20-36), as a function of the
recentred coordinate `uv` and the time uniform. -/
noncomputable def fragColorAt (uv : Vec2) (iTime : ℝ) : Vec3 :=
  (List.range 6).foldl (fragLoopBody iTime uv) (0.05, 0.05, 0.1)

/-- The whole fragment `main` (lines 16-39): computes
`uv = gl_FragCoord.xy / iResolution.xy - 0.5` and writes
`gl_FragColor = vec4(col, 1.0)`. -/
noncomputable def fragmentMain (fragCoord iResolution : Vec2) (iTime : ℝ) :
    Vec3 × ℝ :=
  let uv : Vec2 := (fragCoord.1 / iResolution.1 - 0.5,
                    fragCoord.2 / iResolution.2 - 0.5)
  (fragColorAt uv iTime, 1)

/-- The spec's reference definition of the fragment shading function
(spec.md section 4.1, "Fragment shading function"): base colour
`(0.05, 0.05, 0.10)` plus, for `i = 0..5` with `f = i/6` and
`speed = 1 + f`, the sum of `(line + glow) * (0.2+f, 0.3, 0.8)` where
`wave = sin(t*speed*0.2 + uv.y*8)*0.2`, `distance = |uv.x - wave|`,
`line = 1 - smoothstep(distance; 0.003, 0.008)` and
`glow = exp(-distance*20)*0.3`; output alpha `1.0`. -/
noncomputable def specFragment (uv : Vec2) (t : ℝ) : Vec3 × ℝ :=
  ((0.05, 0.05, 0.10) + ∑ i in Finset.range 6,
    (let f : ℝ := (i : ℝ) / 6
     let speed := 1 + f
     let wave := Real.sin (t * speed * 0.2 + uv.2 * 8) * 0.2
     let d := |uv.1 - wave|
     let line := 1 - smoothstep 0.003 0.008 d
     let glow := Real.exp (-d * 20) * 0.3
     vscale (line + glow) (0.2 + f, 0.3, 0.8)),
   1.0)

/-- Unfolding the 6-iteration fold into base plus a `Finset` sum. -/
theorem fragColorAt_eq_sum (uv : Vec2) (iTime : ℝ) :
    fragColorAt uv iTime
      = (0.05, 0.05, 0.1) + ∑ i in Finset.range 6, fragContrib iTime uv i := by
  simp only [fragColorAt, List.range_succ, List.range_zero, List.foldl,
    List.nil_append, List.cons_append, List.foldl_append, fragLoopBody,
    Finset.sum_range_succ, Finset.sum_range_zero]
  abel

/-! ### Helper lemmas about GLSL `smoothstep` -/

/-- Clamping to the unit interval yields 0 on nonpositive input. -/
theorem clampGL01_of_nonpos {x : ℝ} (h : x ≤ 0) : clampGL x 0 1 = 0 := by
  unfold clampGL
  rw [max_eq_right h, min_eq_left (by norm_num : (0:ℝ) ≤ 1)]

/-- Clamping to the unit interval yields 1 on input at least 1. -/
theorem clampGL01_of_one_le {x : ℝ} (h : 1 ≤ x) : clampGL x 0 1 = 1 := by
  unfold clampGL
  rw [max_eq_left (le_trans zero_le_one h), min_eq_right h]

/-- The clamp stays in the unit interval whatever the input. -/
theorem clampGL01_mem (x : ℝ) : 0 ≤ clampGL x 0 1 ∧ clampGL x 0 1 ≤ 1 :=
  ⟨le_min (le_max_right x 0) zero_le_one, min_le_right _ _⟩

/-- GLSL smoothstep vanishes when the clamped parameter is nonpositive. -/
theorem smoothstep_eq_zero {e0 e1 x : ℝ} (h : (x - e0) / (e1 - e0) ≤ 0) :
    smoothstep e0 e1 x = 0 := by
  unfold smoothstep
  rw [clampGL01_of_nonpos h]
  ring

/-- GLSL smoothstep equals 1 when the clamped parameter is at least 1. -/
theorem smoothstep_eq_one {e0 e1 x : ℝ} (h : 1 ≤ (x - e0) / (e1 - e0)) :
    smoothstep e0 e1 x = 1 := by
  unfold smoothstep
  rw [clampGL01_of_one_le h]
  ring

/-- GLSL smoothstep is nonnegative. -/
theorem smoothstep_nonneg (e0 e1 x : ℝ) : 0 ≤ smoothstep e0 e1 x := by
  have key : ∀ t : ℝ, 0 ≤ t → t ≤ 1 → 0 ≤ t * t * (3 - 2 * t) := by
    intro t h0 h1
    nlinarith
  obtain ⟨h0, h1⟩ := clampGL01_mem ((x - e0) / (e1 - e0))
  exact key _ h0 h1

/-- GLSL smoothstep is at most 1. -/
theorem smoothstep_le_one (e0 e1 x : ℝ) : smoothstep e0 e1 x ≤ 1 := by
  have key : ∀ t : ℝ, 0 ≤ t → t ≤ 1 → t * t * (3 - 2 * t) ≤ 1 := by
    intro t h0 h1
    nlinarith [sq_nonneg (1 - t), mul_nonneg (mul_nonneg h0 h0) h0]
  obtain ⟨h0, h1⟩ := clampGL01_mem ((x - e0) / (e1 - e0))
  exact key _ h0 h1

/-- Each loop iteration adds a strictly positive amount to each channel:
the line mask is nonnegative, the exponential glow is strictly positive,
and all three colour weights are strictly positive. -/
theorem fragContrib_pos (iTime : ℝ) (uv : Vec2) (i : ℕ) :
    0 < (fragContrib iTime uv i).1 ∧ 0 < (fragContrib iTime uv i).2.1 ∧
      0 < (fragContrib iTime uv i).2.2 := by
  have hline : 0 ≤ lineOf iTime uv i := by
    unfold lineOf
    linarith [smoothstep_le_one 0.003 0.008 (distOf iTime uv i)]
  have hblur : 0 < blurOf iTime uv i := by
    unfold blurOf
    positivity
  have hsum : 0 < lineOf iTime uv i + blurOf iTime uv i := by linarith
  unfold fragContrib vscale
  refine ⟨mul_pos hsum (by positivity), mul_pos hsum (by norm_num),
    mul_pos hsum (by norm_num)⟩

/-! ### Claims about the host-side renderer -/

/-- C2: when a shader stage fails to compile during initialization —
either stage — that stage's info-log diagnostic is logged, yet linking
and activation proceed regardless and the render loop is still started;
no unhandled error stops frame scheduling (the embedding of `initShader`
is a total function). -/
theorem c2_compile_failure_still_renders (env : GLEnv) (w h : Nat)
    (hctx : env.contextAvailable = true) :
    (env.vertexCompileOk = false →
      ("Vertex shader error: " ++ env.vertexInfoLog)
        ∈ (initShader env w h).consoleLog) ∧
    (env.fragmentCompileOk = false →
      ("Fragment shader error: " ++ env.fragmentInfoLog)
        ∈ (initShader env w h).consoleLog) ∧
    (initShader env w h).linked = true ∧
    (initShader env w h).programActive = true ∧
    (initShader env w h).renderLoopStarted = true := by
  refine ⟨fun hv => ?_, fun hf => ?_, ?_⟩
  · simp [initShader, hctx, hv, resizeCanvas, initialRenderer]
  · simp [initShader, hctx, hf, resizeCanvas, initialRenderer]
  · simp [initShader, hctx, resizeCanvas, initialRenderer]

/-- Witness for C2: a concrete environment in which both stages fail, so
both per-stage diagnostics are exercised. -/
theorem c2_witness :
    (⟨true, false, false, "bad vertex", "bad fragment"⟩ : GLEnv).contextAvailable
        = true ∧
    (((⟨true, false, false, "bad vertex", "bad fragment"⟩ : GLEnv).vertexCompileOk
          = false →
        ("Vertex shader error: "
            ++ (⟨true, false, false, "bad vertex", "bad fragment"⟩ : GLEnv).vertexInfoLog)
          ∈ (initShader ⟨true, false, false, "bad vertex", "bad fragment"⟩ 1 1).consoleLog) ∧
      ((⟨true, false, false, "bad vertex", "bad fragment"⟩ : GLEnv).fragmentCompileOk
          = false →
        ("Fragment shader error: "
            ++ (⟨true, false, false, "bad vertex", "bad fragment"⟩ : GLEnv).fragmentInfoLog)
          ∈ (initShader ⟨true, false, false, "bad vertex", "bad fragment"⟩ 1 1).consoleLog) ∧
      (initShader ⟨true, false, false, "bad vertex", "bad fragment"⟩ 1 1).linked = true ∧
      (initShader ⟨true, false, false, "bad vertex", "bad fragment"⟩ 1 1).programActive = true ∧
      (initShader ⟨true, false, false, "bad vertex", "bad fragment"⟩ 1 1).renderLoopStarted = true) :=
  ⟨rfl, c2_compile_failure_still_renders _ 1 1 rfl⟩

/-- C3: whenever `resizeCanvas` runs to completion on viewport dimensions
`(winW, winH)` with both positive, the canvas dimensions equal
`(winW, winH)` and the GL viewport is exactly `(0, 0, winW, winH)`. -/
theorem c3_resize_sets_dims (winW winH : Nat) (s s' : Renderer)
    (hw : 0 < winW) (hh : 0 < winH)
    (hok : resizeCanvas winW winH s = Except.ok s') :
    s'.canvasW = winW ∧ s'.canvasH = winH ∧
      s'.viewport = some (0, 0, winW, winH) := by
  unfold resizeCanvas at hok
  by_cases hgl : s.gl
  · simp [hgl] at hok
    rw [← hok]
    exact ⟨rfl, rfl, rfl⟩
  · simp [hgl] at hok

/-- Witness for C3 at the concrete viewport 800 by 600. -/
theorem c3_witness :
    0 < 800 ∧ 0 < 600 ∧
    resizeCanvas 800 600 { initialRenderer with gl := true }
      = Except.ok { initialRenderer with
                    gl := true, canvasW := 800,
                    canvasH := 600, viewport := some (0, 0, 800, 600) } ∧
    (({ initialRenderer with
        gl := true, canvasW := 800, canvasH := 600,
        viewport := some (0, 0, 800, 600) } : Renderer).canvasW = 800 ∧
      ({ initialRenderer with
         gl := true, canvasW := 800, canvasH := 600,
         viewport := some (0, 0, 800, 600) } : Renderer).canvasH = 600 ∧
      ({ initialRenderer with
         gl := true, canvasW := 800, canvasH := 600,
         viewport := some (0, 0, 800, 600) } : Renderer).viewport
        = some (0, 0, 800, 600)) :=
  ⟨by norm_num, by norm_num, rfl,
    c3_resize_sets_dims 800 600 { initialRenderer with gl := true } _
      (by norm_num) (by norm_num) rfl⟩

/-- C6: for a fixed start time and any non-decreasing sequence of clock
readings, the elapsed time pushed by consecutive render frames never
decreases. -/
theorem c6_elapsed_monotone (startTime : ℤ) (times : ℕ → ℤ)
    (hmono : ∀ n, times n ≤ times (n + 1)) (s : Renderer) (n : ℕ) :
    (renderFrame startTime (times n) s).iTime
      ≤ (renderFrame startTime (times (n + 1)) s).iTime := by
  show elapsedTime startTime (times n) ≤ elapsedTime startTime (times (n + 1))
  unfold elapsedTime
  have h1 : ((times n - startTime : ℤ) : ℚ)
      ≤ ((times (n + 1) - startTime : ℤ) : ℚ) := by
    exact_mod_cast sub_le_sub_right (hmono n) startTime
  exact (div_le_div_iff_of_pos_right (by norm_num)).mpr h1

/-- Witness for C6: two consecutive frames on the identity mock clock. -/
theorem c6_witness :
    (renderFrame 0 0 initialRenderer).iTime
      ≤ (renderFrame 0 1 initialRenderer).iTime :=
  c6_elapsed_monotone 0 (fun n => (n : ℤ))
    (fun n => by
      show (n : ℤ) ≤ ((n + 1 : ℕ) : ℤ)
      exact_mod_cast Nat.le_succ n) initialRenderer 0

/-- Counterexample to C7 as stated: with the WebGL context unavailable,
initialization aborts after logging, but a subsequent viewport-size-change
event makes `resizeCanvas` throw (dereference of the null `gl` handle), so
an exception *is* raised by the program thereafter. -/
theorem c7_counterexample :
    (initShader ⟨false, true, true, "", ""⟩ 800 600).renderLoopStarted = false ∧
    (initShader ⟨false, true, true, "", ""⟩ 800 600).consoleLog
      = ["WebGL not supported"] ∧
    resizeCanvas 1024 768 (initShader ⟨false, true, true, "", ""⟩ 800 600)
      = Except.error "TypeError: cannot read gl.viewport of null" :=
  ⟨rfl, rfl, rfl⟩

/-- C7 (amended): if the GPU context is unavailable at initialization, the
failure is logged and all further setup is aborted (nothing linked, no
buffer upload, no render loop), and initialization itself raises no
exception; however a subsequent viewport-size-change event makes
`resizeCanvas` throw on the null context. -/
theorem c7_amended_abort_but_resize_throws (env : GLEnv) (w h : Nat)
    (hctx : env.contextAvailable = false) :
    (initShader env w h).consoleLog = ["WebGL not supported"] ∧
    (initShader env w h).linked = false ∧
    (initShader env w h).programActive = false ∧
    (initShader env w h).bufferUploaded = false ∧
    (initShader env w h).renderLoopStarted = false ∧
    ∀ wR hR, resizeCanvas wR hR (initShader env w h)
      = Except.error "TypeError: cannot read gl.viewport of null" := by
  simp [initShader, hctx, initialRenderer, resizeCanvas]

/-- Witness for the amended C7 at a concrete context-less environment. -/
theorem c7_witness :
    (⟨false, true, true, "", ""⟩ : GLEnv).contextAvailable = false ∧
    ((initShader ⟨false, true, true, "", ""⟩ 1 1).consoleLog
        = ["WebGL not supported"] ∧
      (initShader ⟨false, true, true, "", ""⟩ 1 1).linked = false ∧
      (initShader ⟨false, true, true, "", ""⟩ 1 1).programActive = false ∧
      (initShader ⟨false, true, true, "", ""⟩ 1 1).bufferUploaded = false ∧
      (initShader ⟨false, true, true, "", ""⟩ 1 1).renderLoopStarted = false ∧
      ∀ wR hR, resizeCanvas wR hR (initShader ⟨false, true, true, "", ""⟩ 1 1)
        = Except.error "TypeError: cannot read gl.viewport of null") :=
  ⟨rfl, c7_amended_abort_but_resize_throws _ 1 1 rfl⟩

/-- Counterexample to C9 as stated: `resizeCanvas` is not failure-free;
on the uninitialized renderer (null `gl`, e.g. a resize event firing when
WebGL is unsupported) it throws. -/
theorem c9_counterexample :
    resizeCanvas 800 600 initialRenderer
      = Except.error "TypeError: cannot read gl.viewport of null" := rfl

/-- C9 (amended): whenever the GPU context is present, `resizeCanvas`
succeeds and is idempotent: a second run returns exactly the state the
first run produced; it fails only when the context is absent. -/
theorem c9_amended_idempotent (winW winH : Nat) (s : Renderer)
    (hgl : s.gl = true) :
    ∃ s', resizeCanvas winW winH s = Except.ok s' ∧
      resizeCanvas winW winH s' = Except.ok s' := by
  refine ⟨{ s with
            canvasW := winW, canvasH := winH,
            viewport := some (0, 0, winW, winH) }, ?_, ?_⟩
  · unfold resizeCanvas
    simp [hgl]
  · unfold resizeCanvas
    simp [hgl]

/-- Witness for the amended C9 at a concrete initialized state. -/
theorem c9_witness :
    ({ initialRenderer with gl := true } : Renderer).gl = true ∧
    ∃ s', resizeCanvas 800 600 { initialRenderer with gl := true }
        = Except.ok s' ∧ resizeCanvas 800 600 s' = Except.ok s' :=
  ⟨rfl, c9_amended_idempotent 800 600 _ rfl⟩

/-! ### Claims about the fragment shading function -/

/-- C1: the fragment shading function equals the spec's reference
definition: on the recentred coordinate `uv` obtained from the pixel
position and resolution, the output is the base colour plus the six
line-and-glow contributions with weights `(0.2+f, 0.3, 0.8)`, alpha 1. -/
theorem c1_fragment_matches_spec_reference (fragCoord iResolution : Vec2)
    (t : ℝ) :
    fragmentMain fragCoord iResolution t
      = specFragment (fragCoord.1 / iResolution.1 - 0.5,
                      fragCoord.2 / iResolution.2 - 0.5) t := by
  simp only [fragmentMain, specFragment]
  rw [fragColorAt_eq_sum]
  simp only [Prod.mk.injEq]
  constructor
  · congr 1
    norm_num [Prod.mk.injEq]
  · norm_num

/-- C4: at uv = (0,0) and t = 0 every loop iteration has wave 0,
distance 0, line 1 and glow 0.3, so each contribution is
1.3 * (0.2 + i/6, 0.3, 0.8), and the final colour is the base colour plus
the sum of these six contributions. -/
theorem c4_origin_scenario :
    (∀ i : Fin 6,
      waveOf 0 (0, 0) i = 0 ∧
      distOf 0 (0, 0) i = 0 ∧
      lineOf 0 (0, 0) i = 1 ∧
      blurOf 0 (0, 0) i = 0.3 ∧
      fragContrib 0 (0, 0) i
        = vscale 1.3 (0.2 + (i : ℕ) / (6 : ℝ), 0.3, 0.8)) ∧
    fragColorAt (0, 0) 0
      = (0.05, 0.05, 0.1)
        + ∑ i in Finset.range 6, vscale 1.3 (0.2 + (i : ℝ) / 6, 0.3, 0.8) := by
  have hwave : ∀ i : ℕ, waveOf 0 (0, 0) i = 0 := by
    intro i
    simp [waveOf]
  have hdist : ∀ i : ℕ, distOf 0 (0, 0) i = 0 := by
    intro i
    simp only [distOf]
    rw [hwave i]
    norm_num
  have hline : ∀ i : ℕ, lineOf 0 (0, 0) i = 1 := by
    intro i
    simp only [lineOf, hdist]
    rw [smoothstep_eq_zero (by norm_num)]
    norm_num
  have hblur : ∀ i : ℕ, blurOf 0 (0, 0) i = 0.3 := by
    intro i
    simp only [blurOf, hdist]
    norm_num
  have hcontrib : ∀ i : ℕ,
      fragContrib 0 (0, 0) i = vscale 1.3 (0.2 + (i : ℝ) / 6, 0.3, 0.8) := by
    intro i
    simp only [fragContrib, hline, hblur]
    norm_num
  constructor
  · intro i
    exact ⟨hwave i, hdist i, hline i, hblur i, hcontrib i⟩
  · rw [fragColorAt_eq_sum]
    exact congrArg _ (Finset.sum_congr rfl fun i _ => hcontrib i)

/-- C5: in every loop iteration, when the distance to the wave is exactly
0.003 the line term is at its maximum 1, and at distance at least 0.008
the line term is exactly 0. -/
theorem c5_line_boundaries (iTime : ℝ) (uv : Vec2) (i : ℕ) :
    (distOf iTime uv i = 0.003 → lineOf iTime uv i = 1) ∧
    (0.008 ≤ distOf iTime uv i → lineOf iTime uv i = 0) := by
  constructor
  · intro h
    simp only [lineOf, h]
    rw [smoothstep_eq_zero (by norm_num)]
    norm_num
  · intro h
    simp only [lineOf]
    rw [smoothstep_eq_one]
    · norm_num
    · rw [le_div_iff₀ (by norm_num : (0:ℝ) < 0.008 - 0.003)]
      linarith

/-- Witness for C5: concrete points where the distance is exactly 0.003
(giving line 1) and at least 0.008 (giving line 0). -/
theorem c5_witness :
    (distOf 0 (0.003, 0) 0 = 0.003 ∧ lineOf 0 (0.003, 0) 0 = 1) ∧
    (0.008 ≤ distOf 0 (1, 0) 0 ∧ lineOf 0 (1, 0) 0 = 0) := by
  have h1 : distOf 0 (0.003, 0) 0 = 0.003 := by
    norm_num [distOf, waveOf]
  have h2 : 0.008 ≤ distOf 0 (1, 0) 0 := by
    norm_num [distOf, waveOf]
  exact ⟨⟨h1, (c5_line_boundaries 0 (0.003, 0) 0).1 h1⟩,
    ⟨h2, (c5_line_boundaries 0 (1, 0) 0).2 h2⟩⟩

/-- C8: the fragment shading function is deterministic: two evaluations
with identical pixel position, resolution and time yield identical output
colours (the embedding reads no state besides its inputs). -/
theorem c8_deterministic (fc1 fc2 res1 res2 : Vec2) (t1 t2 : ℝ)
    (hfc : fc1 = fc2) (hres : res1 = res2) (ht : t1 = t2) :
    fragmentMain fc1 res1 t1 = fragmentMain fc2 res2 t2 := by
  rw [hfc, hres, ht]

/-- Witness for C8 at a concrete pixel, resolution and time. -/
theorem c8_witness :
    ((1, 1) : Vec2) = (1, 1) ∧ ((2, 2) : Vec2) = (2, 2) ∧ (0 : ℝ) = 0 ∧
    fragmentMain (1, 1) (2, 2) 0 = fragmentMain (1, 1) (2, 2) 0 :=
  ⟨rfl, rfl, rfl, c8_deterministic (1, 1) (1, 1) (2, 2) (2, 2) 0 0 rfl rfl rfl⟩

/-- C10: every output channel strictly exceeds the corresponding base
colour component (0.05, 0.05, 0.1): each of the six iterations adds a
strictly positive amount to every channel. -/
theorem c10_channels_exceed_base (uv : Vec2) (t : ℝ) :
    0.05 < (fragColorAt uv t).1 ∧ 0.05 < (fragColorAt uv t).2.1 ∧
      0.1 < (fragColorAt uv t).2.2 := by
  rw [fragColorAt_eq_sum]
  have hne : (Finset.range 6).Nonempty := ⟨0, by simp⟩
  refine ⟨?_, ?_, ?_⟩
  · rw [Prod.fst_add, Prod.fst_sum]
    have hpos : 0 < ∑ i in Finset.range 6, (fragContrib t uv i).1 :=
      Finset.sum_pos (fun i _ => (fragContrib_pos t uv i).1) hne
    show (0.05 : ℝ) < 0.05 + _
    linarith
  · rw [Prod.snd_add, Prod.fst_add, Prod.snd_sum, Prod.fst_sum]
    have hpos : 0 < ∑ i in Finset.range 6, (fragContrib t uv i).2.1 :=
      Finset.sum_pos (fun i _ => (fragContrib_pos t uv i).2.1) hne
    show (0.05 : ℝ) < 0.05 + _
    linarith
  · rw [Prod.snd_add, Prod.snd_add, Prod.snd_sum, Prod.snd_sum]
    have hpos : 0 < ∑ i in Finset.range 6, (fragContrib t uv i).2.2 :=
      Finset.sum_pos (fun i _ => (fragContrib_pos t uv i).2.2) hne
    show (0.1 : ℝ) < 0.1 + _
    linarith

end Shader
